import Mathlib

set_option autoImplicit false
set_option linter.unusedVariables false

/-
Verification of the openvoxel renderer core against its design document.

The Go sources are shallowly embedded:
  * float32 / float64 values are modelled as exact rationals;
  * the OpenGL / WebGL driver is an oracle (structure GLDriver) whose fields
    give the driver's answers to status queries and uniform-location lookups;
  * Go methods on pointer receivers become functions returning the updated
    receiver next to their Go results; a Go panic becomes a distinguished
    constructor of the result type;
  * GPU-state mutations issued by a call are returned as an explicit list of
    commands, so that absence of mutation is the empty list.
-/

namespace OpenVoxel

/-! Transform package (package transform, matrix helpers). mgl32.Mat4 is a
4x4 float32 matrix; Mul4 is the standard matrix product with each entry the
unrolled 4-term sum of products. -/

/-- A 4x4 matrix with exact-rational entries, modelling mgl32.Mat4. -/
abbrev Mat4 : Type := Fin 4 → Fin 4 → ℚ

/-- Matrix product, modelling mgl32.Mat4.Mul4: entry (i, j) is the unrolled
sum of m1 row i times m2 column j. -/
def Mat4.mul4 (m1 m2 : Mat4) : Mat4 := fun i j =>
  m1 i 0 * m2 0 j + m1 i 1 * m2 1 j + m1 i 2 * m2 2 j + m1 i 3 * m2 3 j

/-- Model of transform.Chain: with an empty argument list the Go code panics
(modelled as none); otherwise it starts from the first matrix and multiplies
the remaining ones into it left to right with Mul4. -/
def Chain (operations : List Mat4) : Option Mat4 :=
  match operations with
  | [] => none
  | op :: rest => some (rest.foldl Mat4.mul4 op)

/-! Shared error values (render/vars.go). Go sentinel errors are modelled by
their message strings. -/

/-- Error value ErrShaderNotLinked from render/vars.go. -/
def ErrShaderNotLinked : String := "shader: invalid state: uniform called before Link()"

/-- Error value ErrNotImplemented from render/vars.go. -/
def ErrNotImplemented : String := "not implemented"

/-! Shader wrapper. Two backends exist with the same API surface: the native
OpenGL one (render/opengl.go) and the WebGL one. Both accumulate stage
sources, compile and link them through the driver, and guard uniform setters
and Use on the presence of a linked program. A nil program pointer (native)
or a null/undefined js.Value (WebGL) is modelled as none. -/

/-- Stage constant gl.VERTEX_SHADER (same numeric value in GL and WebGL). -/
def GL_VERTEX_SHADER : Nat := 0x8B31

/-- Stage constant gl.FRAGMENT_SHADER (same numeric value in GL and WebGL). -/
def GL_FRAGMENT_SHADER : Nat := 0x8B30

/-- One recorded shader stage: source text tagged with a stage constant.
Both backends declare this shape (struct shaderSource). -/
structure shaderSource where
  src : String
  shaderType : Nat
deriving DecidableEq

/-- Driver oracle: the answers of the GL or WebGL implementation to the
status queries and lookups the wrapper performs. compileOk is the
COMPILE_STATUS answer for a given source and stage type, linkOk the
LINK_STATUS answer for a program with the given attached shader ids, the log
fields the corresponding info logs, and uniformLoc the GetUniformLocation
answer. -/
structure GLDriver where
  compileOk : String → Nat → Bool
  compileLog : String → Nat → String
  linkOk : List Nat → Bool
  linkLog : List Nat → String
  uniformLoc : Nat → String → Int

/-- The program handle produced by CreateProgram in this model (one program
is created per Link call). -/
def newProgramId : Nat := 1

/-- Shader ids handed out by CreateShader: n fresh ids starting at k. -/
def stageIds : Nat → Nat → List Nat
  | _, 0 => []
  | k, n + 1 => k :: stageIds (k + 1) n

/-- GPU commands a uniform-setter call may issue; returned as an explicit
trace so that absence of GPU-state mutation is the empty trace. -/
inductive GLCmd where
  | getUniformLocation (program : Nat) (name : String)
  | uniform1i (loc : Int) (v0 : Int)
  | uniform2i (loc : Int) (v0 v1 : Int)
  | uniform3i (loc : Int) (v0 v1 v2 : Int)
  | uniform4i (loc : Int) (v0 v1 v2 v3 : Int)
  | uniform1f (loc : Int) (v0 : ℚ)
  | uniform2f (loc : Int) (v0 v1 : ℚ)
  | uniform3f (loc : Int) (v0 v1 v2 : ℚ)
  | uniform4f (loc : Int) (v0 v1 v2 v3 : ℚ)
  | uniformMatrix4fv (loc : Int) (m : Mat4)

/-- Outcome of Shader.Use: either the Go panic (with its message) or a
UseProgram call on the linked program handle. Use returns no error value in
the source; the only failure mode is the panic. -/
inductive UseResult where
  | panicked (msg : String)
  | used (program : Nat)
deriving DecidableEq

namespace Native

/-- Native Shader (render/opengl.go): recorded stages plus the program
pointer, nil until a successful Link. -/
structure Shader where
  shaderFiles : List shaderSource
  program : Option Nat
deriving DecidableEq

/-- Shader.VertexShader: appends the source as a vertex stage. -/
def Shader.VertexShader (s : Shader) (src : String) : Shader :=
  { s with shaderFiles := s.shaderFiles ++ [⟨src, GL_VERTEX_SHADER⟩] }

/-- Shader.FragmentShader: appends the source as a fragment stage. -/
def Shader.FragmentShader (s : Shader) (src : String) : Shader :=
  { s with shaderFiles := s.shaderFiles ++ [⟨src, GL_FRAGMENT_SHADER⟩] }

/-- Shader.compileShader: creates a shader id, compiles the source, and on a
FALSE compile status returns the info-log error; otherwise the id. -/
def compileShader (d : GLDriver) (id : Nat) (src : String) (shaderType : Nat) :
    Except String Nat :=
  if d.compileOk src shaderType then .ok id
  else .error ("Failed to compile shader: " ++ d.compileLog src shaderType)

/-- The compile loop of Shader.Link: compiles each recorded stage in order
with fresh ids starting at next, stopping at the first compile error. -/
def compileAll (d : GLDriver) (next : Nat) : List shaderSource → Except String (List Nat)
  | [] => .ok []
  | file :: rest =>
    match compileShader d next file.src file.shaderType with
    | .error e => .error e
    | .ok id =>
      match compileAll d (next + 1) rest with
      | .error e => .error e
      | .ok ids => .ok (id :: ids)

/-- Shader.linkProgram (native): creates a program, attaches the shaders and
links; on a FALSE link status it returns the program info log as an error,
otherwise it deletes the shaders and returns the program handle. -/
def linkProgram (d : GLDriver) (shaders : List Nat) : Except String Nat :=
  let shaderProgram := newProgramId
  if d.linkOk shaders then .ok shaderProgram
  else .error ("Failed to create shader program: \n" ++ d.linkLog shaders)

/-- Shader.Link (native): compiles every recorded stage, links them, and
only on success stores the program handle. Note the source never tests
whether shaderFiles is empty: with zero stages the loop body never runs and
linkProgram is called on an empty shader list. -/
def Shader.Link (s : Shader) (d : GLDriver) : Shader × Except String Unit :=
  match compileAll d 1 s.shaderFiles with
  | .error e => (s, .error e)
  | .ok shaders =>
    match linkProgram d shaders with
    | .error e => (s, .error e)
    | .ok p => ({ s with program := some p }, .ok ())

/-- Shader.Use (native): panics when the program pointer is nil, otherwise
issues UseProgram. -/
def Shader.Use (s : Shader) : UseResult :=
  match s.program with
  | none => .panicked "shader program not linked; call Shader.Link() first"
  | some p => .used p

/-- Shader.UniformInts (native): returns ErrShaderNotLinked before any GL
call when the program pointer is nil; otherwise looks up the location and
dispatches on the argument count, erroring outside 1..4. -/
def Shader.UniformInts (s : Shader) (d : GLDriver) (name : String) (v : List Int) :
    Shader × List GLCmd × Except String Unit :=
  match s.program with
  | none => (s, [], .error ErrShaderNotLinked)
  | some p =>
    let loc := d.uniformLoc p name
    match v with
    | [v0] => (s, [.getUniformLocation p name, .uniform1i loc v0], .ok ())
    | [v0, v1] => (s, [.getUniformLocation p name, .uniform2i loc v0 v1], .ok ())
    | [v0, v1, v2] => (s, [.getUniformLocation p name, .uniform3i loc v0 v1 v2], .ok ())
    | [v0, v1, v2, v3] => (s, [.getUniformLocation p name, .uniform4i loc v0 v1 v2 v3], .ok ())
    | _ => (s, [.getUniformLocation p name],
        .error ("invalid argument count: " ++ toString v.length ++ ", expected up to 4 values"))

/-- Shader.UniformFloats (native): same guard and dispatch as UniformInts,
over float values. -/
def Shader.UniformFloats (s : Shader) (d : GLDriver) (name : String) (v : List ℚ) :
    Shader × List GLCmd × Except String Unit :=
  match s.program with
  | none => (s, [], .error ErrShaderNotLinked)
  | some p =>
    let loc := d.uniformLoc p name
    match v with
    | [v0] => (s, [.getUniformLocation p name, .uniform1f loc v0], .ok ())
    | [v0, v1] => (s, [.getUniformLocation p name, .uniform2f loc v0 v1], .ok ())
    | [v0, v1, v2] => (s, [.getUniformLocation p name, .uniform3f loc v0 v1 v2], .ok ())
    | [v0, v1, v2, v3] => (s, [.getUniformLocation p name, .uniform4f loc v0 v1 v2 v3], .ok ())
    | _ => (s, [.getUniformLocation p name],
        .error ("invalid argument count: " ++ toString v.length ++ ", expected up to 4 values"))

/-- Shader.UniformTransformation (native): guard on the nil program, then a
location lookup and one UniformMatrix4fv upload. -/
def Shader.UniformTransformation (s : Shader) (d : GLDriver) (name : String) (model : Mat4) :
    Shader × List GLCmd × Except String Unit :=
  match s.program with
  | none => (s, [], .error ErrShaderNotLinked)
  | some p =>
    (s, [.getUniformLocation p name, .uniformMatrix4fv (d.uniformLoc p name) model], .ok ())

end Native

namespace Web

/-- WebGL Shader: recorded stages plus the program js.Value;
null/undefined (before a successful Link) is modelled as none. -/
structure Shader where
  shaderFiles : List shaderSource
  program : Option Nat
deriving DecidableEq

/-- Shader.compileShader (WebGL): compiles and, on a false COMPILE_STATUS,
returns the info-log error prefixed with webgl. -/
def compileShader (d : GLDriver) (id : Nat) (src : String) (shaderType : Nat) :
    Except String Nat :=
  if d.compileOk src shaderType then .ok id
  else .error ("webgl: " ++ d.compileLog src shaderType)

/-- The compile loop of the WebGL Shader.Link. -/
def compileAll (d : GLDriver) (next : Nat) : List shaderSource → Except String (List Nat)
  | [] => .ok []
  | file :: rest =>
    match compileShader d next file.src file.shaderType with
    | .error e => .error e
    | .ok id =>
      match compileAll d (next + 1) rest with
      | .error e => .error e
      | .ok ids => .ok (id :: ids)

/-- Shader.linkProgram (WebGL): creates a program, attaches the shaders,
links, queries LINK_STATUS only to log it, and returns the program with a
nil error unconditionally: the status is never checked. -/
def linkProgram (d : GLDriver) (shaders : List Nat) : Except String Nat :=
  let shaderProgram := newProgramId
  let _status := d.linkOk shaders
  .ok shaderProgram

/-- Shader.Link (WebGL): compiles every recorded stage, calls linkProgram,
and stores the program value whenever linkProgram reports no error. -/
def Shader.Link (s : Shader) (d : GLDriver) : Shader × Except String Unit :=
  match compileAll d 1 s.shaderFiles with
  | .error e => (s, .error e)
  | .ok shaders =>
    match linkProgram d shaders with
    | .error e => (s, .error e)
    | .ok p => ({ s with program := some p }, .ok ())

/-- Shader.Use (WebGL): panics when the program is null or undefined,
otherwise issues useProgram. -/
def Shader.Use (s : Shader) : UseResult :=
  match s.program with
  | none => .panicked "shader program not linked; call Shader.Link() first"
  | some p => .used p

/-- Shader.UniformInts (WebGL): returns ErrShaderNotLinked before any GL
call when the program is null or undefined; otherwise looks up the location
and dispatches on the argument count. -/
def Shader.UniformInts (s : Shader) (d : GLDriver) (name : String) (v : List Int) :
    Shader × List GLCmd × Except String Unit :=
  match s.program with
  | none => (s, [], .error ErrShaderNotLinked)
  | some p =>
    let loc := d.uniformLoc p name
    match v with
    | [v0] => (s, [.getUniformLocation p name, .uniform1i loc v0], .ok ())
    | [v0, v1] => (s, [.getUniformLocation p name, .uniform2i loc v0 v1], .ok ())
    | [v0, v1, v2] => (s, [.getUniformLocation p name, .uniform3i loc v0 v1 v2], .ok ())
    | [v0, v1, v2, v3] => (s, [.getUniformLocation p name, .uniform4i loc v0 v1 v2 v3], .ok ())
    | _ => (s, [.getUniformLocation p name],
        .error ("shader: invalid argument count: " ++ toString v.length ++ ", expected up to 4 values"))

/-- Shader.UniformFloats (WebGL): same guard and dispatch over floats. -/
def Shader.UniformFloats (s : Shader) (d : GLDriver) (name : String) (v : List ℚ) :
    Shader × List GLCmd × Except String Unit :=
  match s.program with
  | none => (s, [], .error ErrShaderNotLinked)
  | some p =>
    let loc := d.uniformLoc p name
    match v with
    | [v0] => (s, [.getUniformLocation p name, .uniform1f loc v0], .ok ())
    | [v0, v1] => (s, [.getUniformLocation p name, .uniform2f loc v0 v1], .ok ())
    | [v0, v1, v2] => (s, [.getUniformLocation p name, .uniform3f loc v0 v1 v2], .ok ())
    | [v0, v1, v2, v3] => (s, [.getUniformLocation p name, .uniform4f loc v0 v1 v2 v3], .ok ())
    | _ => (s, [.getUniformLocation p name],
        .error ("shader: invalid argument count: " ++ toString v.length ++ ", expected up to 4 values"))

/-- Shader.UniformTransformation (WebGL): guard on the null or undefined
program, then a location lookup and a uniformMatrix4fv upload of the
column-major matrix data. -/
def Shader.UniformTransformation (s : Shader) (d : GLDriver) (name : String) (t : Mat4) :
    Shader × List GLCmd × Except String Unit :=
  match s.program with
  | none => (s, [], .error ErrShaderNotLinked)
  | some p =>
    (s, [.getUniformLocation p name, .uniformMatrix4fv (d.uniformLoc p name) t], .ok ())

end Web

/-- A driver answering every status query with success, the behavior a
conforming OpenGL implementation exhibits when every submitted source is
valid; conforming drivers in particular report LINK_STATUS true for a
program with no attached shaders. -/
def permissiveDriver : GLDriver where
  compileOk := fun _ _ => true
  compileLog := fun _ _ => ""
  linkOk := fun _ => true
  linkLog := fun _ => ""
  uniformLoc := fun _ _ => 0

/-- A driver whose shaders all compile but whose program link always fails
with a fixed info log. -/
def linkFailDriver : GLDriver where
  compileOk := fun _ _ => true
  compileLog := fun _ _ => ""
  linkOk := fun _ => false
  linkLog := fun _ => "link failed"
  uniformLoc := fun _ _ => 0

/-! Scene (native backend, render/opengl.go). The model keeps the pieces of
state the vertex-upload and draw paths touch: the ARRAY_BUFFER contents
(BufferData replaces them wholesale), the tracked vboSize and eboSize
counters, and which draw call Draw ends up issuing. The camera-uniform,
texture-binding and polygon-mode side effects of Draw are orthogonal to this
state and are not represented. -/

/-- Mode constant gl.TRIANGLES. -/
def GL_TRIANGLES : Nat := 0x0004

/-- The final draw call Scene.Draw issues: DrawElements when an index buffer
was uploaded, DrawArrays from vertex 0 otherwise. -/
inductive DrawCmd where
  | drawElements (mode : Nat) (count : Int)
  | drawArrays (mode : Nat) (first : Int) (count : Int)
deriving DecidableEq

namespace Native

/-- Scene buffer state (native): vertex-buffer contents and the two tracked
size counters (Go int32 fields, far from overflow here). -/
structure Scene where
  vboData : List ℚ
  vboSize : Int
  eboData : List Nat
  eboSize : Int
deriving DecidableEq

/-- NewScene: all buffer state zero-initialized. -/
def NewScene : Scene :=
  { vboData := [], vboSize := 0, eboData := [], eboSize := 0 }

/-- Scene.AddVertices: BufferData replaces the ARRAY_BUFFER contents with
the new vertex array, while the tracked counter is incremented by the new
array's length divided by 5 (the plus-equals in the source), not reset. -/
def Scene.AddVertices (s : Scene) (vertices : List ℚ) : Scene :=
  { s with
    vboData := vertices
    vboSize := s.vboSize + Int.ofNat (vertices.length / 5) }

/-- The draw call at the end of Scene.Draw: indexed when eboSize is
positive, otherwise DrawArrays over the tracked vboSize count. -/
def Scene.Draw (s : Scene) : DrawCmd :=
  if s.eboSize > 0 then .drawElements GL_TRIANGLES s.eboSize
  else .drawArrays GL_TRIANGLES 0 s.vboSize

end Native

/-! Window mouse-look state (native backend, Window.onCursorPosChange). The
trigonometric helpers used to rebuild the camera front vector (DegToRad,
cos, sin and vector normalization) are irrational-valued and are passed in
as abstract functions; the pitch bookkeeping itself is exact. -/

/-- The Window fields the cursor callback reads and writes, plus the derived
camera front vector. -/
structure CursorState where
  firstMouse : Bool
  lastX : ℚ
  lastY : ℚ
  yaw : ℚ
  pitch : ℚ
  sensitivity : ℚ
  camFront : ℚ × ℚ × ℚ

/-- Window.onCursorPosChange: first-mouse snap, offset scaling by the
sensitivity, yaw and pitch update with the two pitch clamps at 89 and -89,
then the spherical-to-Cartesian front vector rebuild. -/
def onCursorPosChange (degToRad cosf sinf : ℚ → ℚ)
    (normalize : ℚ × ℚ × ℚ → ℚ × ℚ × ℚ)
    (w : CursorState) (xpos ypos : ℚ) : CursorState :=
  let w := if w.firstMouse then
    { w with lastX := xpos, lastY := ypos, firstMouse := false } else w
  let xoffset := (xpos - w.lastX) * w.sensitivity
  let yoffset := (w.lastY - ypos) * w.sensitivity
  let w := { w with lastX := xpos, lastY := ypos }
  let yaw := w.yaw + xoffset
  let pitch := w.pitch + yoffset
  let pitch := if pitch > 89 then (89 : ℚ) else pitch
  let pitch := if pitch < -89 then (-89 : ℚ) else pitch
  let yawR := degToRad yaw
  let pitchR := degToRad pitch
  let direction := (cosf yawR * cosf pitchR, sinf pitchR, sinf yawR * cosf pitchR)
  { w with yaw := yaw, pitch := pitch, camFront := normalize direction }

/-! Texture decoding (decodeImage, shared verbatim by both backends, and
NewTextureFromBytes). The image codec and the vertical flip are external
collaborators: image.Decode is an abstract decoder parameter producing an
RGBA view of the image, imaging.FlipV reverses the row order, image.NewRGBA
allocates a buffer whose stride the Go library fixes at 4 times the width,
and draw.Draw copies the pixels into that buffer row-major, 4 bytes per
pixel. -/

/-- One RGBA pixel, one byte per channel. -/
structure RGBA where
  r : Nat
  g : Nat
  b : Nat
  a : Nat
deriving DecidableEq

/-- The 4 bytes of a pixel in buffer order. -/
def RGBA.toBytes (p : RGBA) : List Nat := [p.r, p.g, p.b, p.a]

/-- A decoded image as the draw.Draw collaborator exposes it: dimensions and
the RGBA pixel at column x of row y, row 0 at the top. -/
structure DecodedImage where
  width : Nat
  height : Nat
  pixelAt : Nat → Nat → RGBA

/-- List concatenation of f over l, used to lay pixel rows out flat. -/
def concatMap {α β : Type} : List α → (α → List β) → List β
  | [], _ => []
  | x :: l, f => f x ++ concatMap l f

/-- imaging.FlipV: the same image with the row order reversed. -/
def imagingFlipV (img : DecodedImage) : DecodedImage :=
  { img with pixelAt := fun x y => img.pixelAt x (img.height - 1 - y) }

/-- The bytes of row y of an image, left to right, 4 bytes per pixel. -/
def rowBytes (img : DecodedImage) (y : Nat) : List Nat :=
  concatMap (List.range img.width) fun x => (img.pixelAt x y).toBytes

/-- The flat Pix buffer draw.Draw fills: all rows top to bottom. -/
def rgbaPix (img : DecodedImage) : List Nat :=
  concatMap (List.range img.height) fun y => rowBytes img y

/-- The row stride image.NewRGBA picks for a width: always 4 times the
width, which is why the stride guard in decodeImage can never fire with the
Go standard library. -/
def goNewRGBAStride (width : Nat) : Nat := 4 * width

/-- decodeImage: decode the bytes (error on failure), flip vertically, guard
on the allocated buffer stride (kept as a parameter so the guard is
expressible), and return width, height and the flat RGBA pixel buffer. -/
def decodeImage (decode : List Nat → Option DecodedImage) (stride : Nat → Nat)
    (b : List Nat) : Except String (Nat × Nat × List Nat) :=
  match decode b with
  | none => .error "image: unknown format"
  | some img =>
    let flipped := imagingFlipV img
    if stride flipped.width ≠ flipped.width * 4 then .error "unsupported stride"
    else .ok (flipped.width, flipped.height, rgbaPix flipped)

/-- Texture pixel state kept by both backends after a successful decode. -/
structure Texture where
  pixels : List Nat
deriving DecidableEq

/-- NewTextureFromBytes: decodes and keeps the pixel buffer (the GL upload
itself carries no further state the claims touch). -/
def NewTextureFromBytes (decode : List Nat → Option DecodedImage)
    (b : List Nat) : Except String Texture :=
  match decodeImage decode goNewRGBAStride b with
  | .error e => .error e
  | .ok (_, _, px) => .ok { pixels := px }

/-- WebGL NewTexture: the path-based loader is not implemented in the WebGL
backend and returns a nil texture with ErrNotImplemented for every path. -/
def Web.NewTexture (path : String) : Option Texture × Option String :=
  (none, some ErrNotImplemented)

end OpenVoxel

namespace OpenVoxel

/-- Claim C6: Chain of a single matrix returns that matrix unchanged, and
Chain (A, B, C) is the left-to-right product (A Mul4 B) Mul4 C. -/
theorem c6_chain_single_and_triple :
    (∀ A : Mat4, Chain [A] = some A) ∧
    (∀ A B C : Mat4, Chain [A, B, C] = some ((A.mul4 B).mul4 C)) := by
  constructor
  · intro A
    rfl
  · intro A B C
    rfl

/-- Claim C7: Chain called with zero matrices hits the fatal precondition
check (modelled as none, never a matrix), and every non-empty argument list
produces a matrix without panicking. -/
theorem c7_chain_empty_panics :
    Chain ([] : List Mat4) = none ∧
    (∀ ops : List Mat4, ops ≠ [] → (Chain ops).isSome = true) := by
  constructor
  · rfl
  · intro ops hne
    match ops, hne with
    | op :: rest, _ => rfl

/-- Witness for c7_chain_empty_panics at the one-element list of the zero
matrix. -/
theorem c7_chain_empty_panics_witness :
    (Chain [fun _ _ => (0 : ℚ)]).isSome = true :=
  c7_chain_empty_panics.2 [fun _ _ => (0 : ℚ)] (by simp)

/-- Claim C1, evaluated at the failing input: a Shader with zero recorded
stages, against a driver that (as conforming OpenGL implementations do)
reports LINK_STATUS true for a program with no attached shaders. Link does
not test for zero stages, so it returns a nil error and installs a program
handle, and Use on the result succeeds instead of aborting, contradicting
both the claim and the doc comment of Link in the source, which promises an
error when no shaders were compiled. -/
theorem c1_zero_stage_link_succeeds :
    Native.Shader.Link ⟨[], none⟩ permissiveDriver =
      (⟨[], some newProgramId⟩, .ok ()) ∧
    (Native.Shader.Link ⟨[], none⟩ permissiveDriver).1.Use = .used newProgramId := by
  constructor <;> rfl

/-- Claim C3, evaluated at the failing input: two successive AddVertices
calls of one vertex (5 floats) each. BufferData replaced the buffer contents
with the second array, but the tracked counter is the accumulated 2, so the
subsequent non-indexed Draw issues DrawArrays with count 2 while the most
recent call provided length / 5 = 1 vertex. -/
theorem c3_vbo_size_accumulates :
    ((Native.NewScene.AddVertices [0, 0, 0, 1, 1]).AddVertices [0, 0, 0, 1, 1]).vboData
        = [0, 0, 0, 1, 1] ∧
    ((Native.NewScene.AddVertices [0, 0, 0, 1, 1]).AddVertices [0, 0, 0, 1, 1]).vboSize = 2 ∧
    ((Native.NewScene.AddVertices [0, 0, 0, 1, 1]).AddVertices [0, 0, 0, 1, 1]).Draw =
      .drawArrays GL_TRIANGLES 0 2 ∧
    ([(0 : ℚ), 0, 0, 1, 1].length / 5 : Nat) = 1 := by
  refine ⟨rfl, by decide, by decide, by decide⟩

/-- Claim C5: Use on a Shader whose program pointer is nil is the Go panic
(Use has no error return at all), and after any successful Link the program
pointer is set, so Use issues UseProgram and does not abort. -/
theorem c5_use_panics_iff_unlinked :
    (∀ s : Native.Shader, s.program = none →
      s.Use = .panicked "shader program not linked; call Shader.Link() first") ∧
    (∀ (s : Native.Shader) (d : GLDriver) (s' : Native.Shader),
      s.Link d = (s', .ok ()) → s'.Use = .used newProgramId) := by
  constructor
  · intro s h
    simp [Native.Shader.Use, h]
  · intro s d s' h
    unfold Native.Shader.Link at h
    cases hc : Native.compileAll d 1 s.shaderFiles with
    | error e => rw [hc] at h; simp at h
    | ok shaders =>
      rw [hc] at h
      dsimp only at h
      unfold Native.linkProgram at h
      cases hl : d.linkOk shaders with
      | false => rw [hl] at h; simp at h
      | true =>
        rw [hl] at h
        simp only [if_true] at h
        rw [Prod.mk.injEq] at h
        obtain ⟨h1, -⟩ := h
        rw [← h1]
        simp [Native.Shader.Use]

/-- Witness for c5_use_panics_iff_unlinked: the fresh Shader panics in Use,
and the Shader produced by a successful Link of the fresh Shader does not. -/
theorem c5_use_panics_iff_unlinked_witness :
    Native.Shader.Use ⟨[], none⟩ =
      .panicked "shader program not linked; call Shader.Link() first" ∧
    Native.Shader.Use ⟨[], some newProgramId⟩ = .used newProgramId := by
  constructor
  · exact c5_use_panics_iff_unlinked.1 ⟨[], none⟩ rfl
  · exact c5_use_panics_iff_unlinked.2 ⟨[], none⟩ permissiveDriver
      ⟨[], some newProgramId⟩ rfl

/-- Claim C4: on a Shader that has not been successfully linked (nil program
pointer in the native backend, null or undefined program in the WebGL one),
each of the three uniform setters returns the ErrShaderNotLinked error,
issues no GPU command at all, and returns the receiver unchanged. -/
theorem c4_unlinked_uniform_setters (s : Native.Shader) (ws : Web.Shader)
    (d : GLDriver) (name : String) (vi : List Int) (vf : List ℚ) (m : Mat4)
    (h : s.program = none) (hw : ws.program = none) :
    s.UniformInts d name vi = (s, [], .error ErrShaderNotLinked) ∧
    s.UniformFloats d name vf = (s, [], .error ErrShaderNotLinked) ∧
    s.UniformTransformation d name m = (s, [], .error ErrShaderNotLinked) ∧
    ws.UniformInts d name vi = (ws, [], .error ErrShaderNotLinked) ∧
    ws.UniformFloats d name vf = (ws, [], .error ErrShaderNotLinked) ∧
    ws.UniformTransformation d name m = (ws, [], .error ErrShaderNotLinked) := by
  refine ⟨?_, ?_, ?_, ?_, ?_, ?_⟩ <;>
    simp [Native.Shader.UniformInts, Native.Shader.UniformFloats,
      Native.Shader.UniformTransformation, Web.Shader.UniformInts,
      Web.Shader.UniformFloats, Web.Shader.UniformTransformation, h, hw]

/-- Witness for c4_unlinked_uniform_setters: the fresh native Shader with
one int argument. -/
theorem c4_unlinked_uniform_setters_witness :
    Native.Shader.UniformInts ⟨[], none⟩ permissiveDriver "frame" [1] =
      (⟨[], none⟩, [], .error ErrShaderNotLinked) :=
  (c4_unlinked_uniform_setters ⟨[], none⟩ ⟨[], none⟩ permissiveDriver "frame"
    [1] [1] (fun _ _ => 0) rfl rfl).1

/-- When every recorded stage compiles, the native compile loop returns the
sequentially allocated shader ids. -/
theorem native_compileAll_ok (d : GLDriver) (files : List shaderSource)
    (h : ∀ f ∈ files, d.compileOk f.src f.shaderType = true) :
    ∀ k : Nat, Native.compileAll d k files = .ok (stageIds k files.length) := by
  induction files with
  | nil => intro k; rfl
  | cons f rest ih =>
    intro k
    have hf : d.compileOk f.src f.shaderType = true := h f (List.mem_cons_self f rest)
    have hrest := ih (fun g hg => h g (List.mem_cons_of_mem f hg)) (k + 1)
    simp [Native.compileAll, Native.compileShader, hf, hrest, stageIds]

/-- When every recorded stage compiles, the WebGL compile loop returns the
sequentially allocated shader ids. -/
theorem web_compileAll_ok (d : GLDriver) (files : List shaderSource)
    (h : ∀ f ∈ files, d.compileOk f.src f.shaderType = true) :
    ∀ k : Nat, Web.compileAll d k files = .ok (stageIds k files.length) := by
  induction files with
  | nil => intro k; rfl
  | cons f rest ih =>
    intro k
    have hf : d.compileOk f.src f.shaderType = true := h f (List.mem_cons_self f rest)
    have hrest := ih (fun g hg => h g (List.mem_cons_of_mem f hg)) (k + 1)
    simp [Web.compileAll, Web.compileShader, hf, hrest, stageIds]

/-- Counterexample to claim C2 as stated: in the WebGL backend, with every
stage compiling but the driver reporting LINK_STATUS false, Link still
returns a nil error and retains the program handle, so the link-status check
and the diagnostic-log error do not hold in both backends. -/
theorem c2_webgl_ignores_link_status :
    Web.Shader.Link ⟨[⟨"vertex-src", GL_VERTEX_SHADER⟩], none⟩ linkFailDriver =
      (⟨[⟨"vertex-src", GL_VERTEX_SHADER⟩], some newProgramId⟩, .ok ()) ∧
    linkFailDriver.linkOk (stageIds 1 1) = false := by
  constructor <;> rfl

/-- Claim C2 as amended: in the native backend, when every stage compiles
and the driver reports link failure, Link returns the error built from the
program info log and returns the Shader unchanged, so no partial program is
retained; the WebGL backend never checks the link status, and once the
stages compile its Link succeeds and stores the program unconditionally. -/
theorem c2_native_checks_link_status (d : GLDriver) :
    (∀ s : Native.Shader,
      (∀ f ∈ s.shaderFiles, d.compileOk f.src f.shaderType = true) →
      d.linkOk (stageIds 1 s.shaderFiles.length) = false →
      s.Link d = (s, .error ("Failed to create shader program: \n" ++
        d.linkLog (stageIds 1 s.shaderFiles.length)))) ∧
    (∀ s : Web.Shader,
      (∀ f ∈ s.shaderFiles, d.compileOk f.src f.shaderType = true) →
      s.Link d = ({ s with program := some newProgramId }, .ok ())) := by
  constructor
  · intro s hc hl
    unfold Native.Shader.Link
    rw [native_compileAll_ok d s.shaderFiles hc 1]
    dsimp only
    simp [Native.linkProgram, hl]
  · intro s hc
    unfold Web.Shader.Link
    rw [web_compileAll_ok d s.shaderFiles hc 1]
    rfl

/-- Witness for c2_native_checks_link_status: a one-stage native Shader
against the always-failing linker. -/
theorem c2_native_checks_link_status_witness :
    Native.Shader.Link ⟨[⟨"vertex-src", GL_VERTEX_SHADER⟩], none⟩ linkFailDriver =
      (⟨[⟨"vertex-src", GL_VERTEX_SHADER⟩], none⟩,
        .error ("Failed to create shader program: \n" ++
          linkFailDriver.linkLog (stageIds 1 1))) :=
  (c2_native_checks_link_status linkFailDriver).1
    ⟨[⟨"vertex-src", GL_VERTEX_SHADER⟩], none⟩ (by intro f hf; rfl) rfl

/-- Claim C9: whatever the trigonometric helpers, the prior window state and
the cursor position, the pitch stored after onCursorPosChange lies in
[-89, 89]: the two clamping branches run unconditionally after the pitch
update. -/
theorem c9_pitch_clamped (degToRad cosf sinf : ℚ → ℚ)
    (normalize : ℚ × ℚ × ℚ → ℚ × ℚ × ℚ)
    (w : CursorState) (xpos ypos : ℚ) :
    -89 ≤ (onCursorPosChange degToRad cosf sinf normalize w xpos ypos).pitch ∧
    (onCursorPosChange degToRad cosf sinf normalize w xpos ypos).pitch ≤ 89 := by
  unfold onCursorPosChange
  dsimp only
  split_ifs <;> constructor <;> dsimp only <;> linarith

/-- Claim C10: the WebGL path-based texture loader returns a nil texture and
ErrNotImplemented for every path. -/
theorem c10_web_newtexture_not_implemented (path : String) :
    Web.NewTexture path = (none, some ErrNotImplemented) := rfl

/-- Length of a concatenation whose pieces all have length c. -/
theorem concatMap_length_const {α β : Type} (l : List α) (f : α → List β) (c : Nat)
    (h : ∀ x ∈ l, (f x).length = c) :
    (concatMap l f).length = l.length * c := by
  induction l with
  | nil => simp [concatMap]
  | cons x l ih =>
    rw [concatMap, List.length_append, h x (List.mem_cons_self x l),
      ih (fun y hy => h y (List.mem_cons_of_mem x hy)),
      List.length_cons, Nat.succ_mul]
    omega

/-- Each image row lays out to width times 4 bytes. -/
theorem rowBytes_length (img : DecodedImage) (y : Nat) :
    (rowBytes img y).length = img.width * 4 := by
  unfold rowBytes
  rw [concatMap_length_const (List.range img.width)
    (fun x => (img.pixelAt x y).toBytes) 4 (fun x _ => rfl), List.length_range]

/-- The flat pixel buffer has width times height times 4 bytes. -/
theorem rgbaPix_length (img : DecodedImage) :
    (rgbaPix img).length = img.width * img.height * 4 := by
  unfold rgbaPix
  rw [concatMap_length_const _ _ (img.width * 4) (fun y _ => rowBytes_length img y),
    List.length_range]
  ring

/-- Taking the length of the left part of a concatenation returns it. -/
theorem take_length_append {α : Type} (l1 l2 : List α) :
    (l1 ++ l2).take l1.length = l1 := by
  induction l1 with
  | nil => rfl
  | cons x l ih => simp [ih]

/-- The first width-times-4 bytes of the flat buffer are row 0. -/
theorem rgbaPix_first_row (img : DecodedImage) (n : Nat) (h : img.height = n + 1) :
    (rgbaPix img).take (img.width * 4) = rowBytes img 0 := by
  unfold rgbaPix
  rw [h, List.range_succ_eq_map, concatMap, ← rowBytes_length img 0]
  exact take_length_append _ _

/-- Row 0 of the vertically flipped image is the last row of the source. -/
theorem rowBytes_flipV_zero (img : DecodedImage) :
    rowBytes (imagingFlipV img) 0 = rowBytes img (img.height - 1) := rfl

/-- Claim C8: when the bytes decode to a W-by-H image, decodeImage (with the
stride the Go library actually allocates) succeeds with a pixel buffer of
length exactly W times H times 4 whose first row is the last row of the
source image, NewTextureFromBytes keeps exactly that buffer, and whenever
the allocated stride were not width times 4, decodeImage returns the
unsupported-stride error with no pixel buffer. -/
theorem c8_decode_contract (decode : List Nat → Option DecodedImage) (b : List Nat)
    (img : DecodedImage) (hdec : decode b = some img) (hpos : 0 < img.height) :
    (decodeImage decode goNewRGBAStride b =
        .ok (img.width, img.height, rgbaPix (imagingFlipV img)) ∧
      (rgbaPix (imagingFlipV img)).length = img.width * img.height * 4 ∧
      (rgbaPix (imagingFlipV img)).take (img.width * 4) = rowBytes img (img.height - 1) ∧
      NewTextureFromBytes decode b = .ok { pixels := rgbaPix (imagingFlipV img) }) ∧
    (∀ stride : Nat → Nat, stride img.width ≠ img.width * 4 →
      decodeImage decode stride b = .error "unsupported stride") := by
  have hok : decodeImage decode goNewRGBAStride b =
      .ok (img.width, img.height, rgbaPix (imagingFlipV img)) := by
    unfold decodeImage
    rw [hdec]
    dsimp only
    rw [if_neg]
    · rfl
    · simp [goNewRGBAStride, imagingFlipV, Nat.mul_comm]
  refine ⟨⟨hok, ?_, ?_, ?_⟩, ?_⟩
  · exact rgbaPix_length (imagingFlipV img)
  · obtain ⟨n, hn⟩ : ∃ n, img.height = n + 1 := ⟨img.height - 1, by omega⟩
    exact (rgbaPix_first_row (imagingFlipV img) n hn).trans (rowBytes_flipV_zero img)
  · unfold NewTextureFromBytes
    rw [hok]
  · intro stride hs
    unfold decodeImage
    rw [hdec]
    simp only [imagingFlipV]
    rw [if_pos hs]

/-- A concrete 2-by-2 image used to instantiate c8_decode_contract. -/
def demoImage : DecodedImage :=
  { width := 2, height := 2, pixelAt := fun x y => ⟨x, y, 0, 255⟩ }

/-- Witness for c8_decode_contract at the 2-by-2 demo image under a decoder
that always yields it. -/
theorem c8_decode_contract_witness :
    decodeImage (fun _ => some demoImage) goNewRGBAStride [] =
      .ok (demoImage.width, demoImage.height, rgbaPix (imagingFlipV demoImage)) :=
  ((c8_decode_contract (fun _ => some demoImage) [] demoImage rfl (by decide)).1).1

end OpenVoxel
